import Mathlib

/-!
Shallow embedding of the iSCSI block-device lifecycle orchestrator
(`iscsiblk/iscsi.go`).

The Go code sequences external iSCSI control-plane operations
(`iscsi.*` and `util.*` helpers) with bounded retry loops.  Those
collaborators are modelled by an oracle structure `Env`: each field
records the result the external call returns at a given call site;
calls that sit inside a retry loop are indexed by the attempt number
(the standard determinization of a changing external world).  The
orchestrator's own control flow — the part the claims are about — is
translated statement by statement.  `ScsiDevice` mutation is explicit
state passing.  `logrus.Fatalf` terminates the process, which is
modelled by the distinguished result `Res.fatal` after which nothing
further runs.
-/

namespace IscsiBlk

/-- Go `error` values are carried as their message strings, since the
code branches on substrings of the message ("exit status 21",
"Timeout executing: "). -/
abbrev Err := String

/-- `RetryCounts = 5` in the source. -/
def RetryCounts : Nat := 5

/-- `TargetLunID = 1` in the source. -/
def TargetLunID : Nat := 1

/-- Go `strings.Contains(s, sub)`. -/
def strContains (s sub : String) : Bool :=
  decide (sub.data <:+: s.data)

/-- `ScsiDevice` struct of the source. -/
structure ScsiDevice where
  Target : String
  TargetID : Int
  Device : String
  BackingFile : String
  BSType : String
  BSOpts : String
  deriving DecidableEq, Repr

/-- Character-level action of `strings.Replace(name, "_", ":", -1)`:
a single-character pattern replacement is exactly a character map. -/
def replUnderscore (c : Char) : Char :=
  if c = '_' then ':' else c

/-- `Volume2ISCSIName` of the source: replace every `_` with `:`. -/
def Volume2ISCSIName (name : String) : String :=
  String.mk (name.data.map replUnderscore)

/-- `GetTargetName` of the source. -/
def GetTargetName (name : String) : String :=
  "iqn.2014-09.com.rancher:" ++ Volume2ISCSIName name

/-- Oracle of the external collaborators (`iscsi.*`, `util.*`,
`nsfilelock`, `os.Stat`).  `none` is a nil Go error, `some e` an error
with message `e`.  Fields of type `Nat → _` are read at attempt index
`i` by the retry loop containing the call site. -/
structure Env where
  /- lock / executor / initiator / IP prologue -/
  lockErr : Option Err
  neErr : Option Err
  checkInitiator : Option Err
  getIP : Except Err String
  /- SetupTarget collaborators -/
  startDaemon : Option Err
  findNextAvailableTargetID : Nat → Except Err Int
  createTarget : Nat → Int → Option Err
  addLun : Option Err
  bindInitiator : Option Err
  /- StartScsi discovery / login / device collaborators -/
  discoverTarget : Nat → Option Err
  isTargetDiscovered : Nat → Bool
  cleanupScsiNodes : Nat → Option Err
  loginTarget : Option Err
  getDevice : Except Err String
  statDeviceReady : Nat → Bool
  /- LogoutTarget collaborators -/
  isTargetLoggedIn : Bool
  logoutTarget : Nat → Option Err
  pollLoggedIn : Nat → Bool
  logoutDiscovered : Nat → Bool
  deleteDiscoveredTarget : Nat → Option Err
  /- DeleteTarget collaborators -/
  getTargetTid : Except Err Int
  unbindInitiator : Option Err
  deleteLun : Option Err
  getTargetConnections : Except Err (List (Int × List Int))
  closeConnection : Int → Int → Option Err
  deleteTargetCmd : Option Err

/-- Result of `DeleteTarget`/`StopScsi`: `fatal` is `logrus.Fatalf`,
which terminates the process. -/
inductive Res where
  | ok : Res
  | err : Err → Res
  | fatal : Res
  deriving DecidableEq, Repr

/-- Teardown steps `DeleteTarget` can perform, recorded in call
order so that "no teardown step was performed" is expressible. -/
inductive TeardownOp where
  | unbindInitiator : TeardownOp
  | deleteLun : TeardownOp
  | closeConnection : Int → Int → TeardownOp
  | deleteTarget : TeardownOp
  deriving DecidableEq, Repr

/-- Inner loop of `DeleteTarget`: close every connection of one
session (`for _, cid := range cidList`). -/
def closeConnectionList (env : Env) (sid : Int) : List Int → Option Err × List TeardownOp
  | [] => (none, [])
  | cid :: rest =>
    match env.closeConnection sid cid with
    | some e => (some e, [TeardownOp.closeConnection sid cid])
    | none =>
      let r := closeConnectionList env sid rest
      (r.1, TeardownOp.closeConnection sid cid :: r.2)

/-- Outer loop of `DeleteTarget`: `for sid, cidList := range sessionConnectionsMap`
(the Go map is iterated as a list of pairs). -/
def closeAllConnections (env : Env) : List (Int × List Int) → Option Err × List TeardownOp
  | [] => (none, [])
  | (sid, cids) :: rest =>
    let r := closeConnectionList env sid cids
    match r.1 with
    | some e => (some e, r.2)
    | none =>
      let r2 := closeAllConnections env rest
      (r2.1, r.2 ++ r2.2)

/-- `DeleteTarget(target, targetID)` of the source, lines 249-279.
`if tid, err := iscsi.GetTargetTid(target); err == nil && tid != -1`
guards the whole teardown; a mismatching tid hits `logrus.Fatalf`. -/
def DeleteTarget (env : Env) (target : String) (targetID : Int) : Res × List TeardownOp :=
  match env.getTargetTid with
  | Except.error _ => (Res.ok, [])
  | Except.ok tid =>
    if tid = -1 then (Res.ok, [])
    else if tid = targetID then
      match env.unbindInitiator with
      | some e => (Res.err e, [TeardownOp.unbindInitiator])
      | none =>
        match env.deleteLun with
        | some e => (Res.err e, [TeardownOp.unbindInitiator, TeardownOp.deleteLun])
        | none =>
          match env.getTargetConnections with
          | Except.error e => (Res.err e, [TeardownOp.unbindInitiator, TeardownOp.deleteLun])
          | Except.ok conns =>
            let r := closeAllConnections env conns
            match r.1 with
            | some e => (Res.err e, TeardownOp.unbindInitiator :: TeardownOp.deleteLun :: r.2)
            | none =>
              match env.deleteTargetCmd with
              | some e =>
                (Res.err e, TeardownOp.unbindInitiator :: TeardownOp.deleteLun :: (r.2 ++ [TeardownOp.deleteTarget]))
              | none =>
                (Res.ok, TeardownOp.unbindInitiator :: TeardownOp.deleteLun :: (r.2 ++ [TeardownOp.deleteTarget]))
    else (Res.fatal, [])

/-- Allocation loop of `SetupTarget`, lines 62-76
(`for i := 0; i < RetryCounts; i++`).  Arguments: current loop index,
remaining iterations.  A `FindNextAvailableTargetID` error returns
from `SetupTarget`; a successful `CreateTarget` sets `dev.TargetID`
and breaks.  When the bound is exhausted the Go loop simply falls
through with `dev` unchanged — faithfully, exhaustion yields
`Except.ok dev`.  The second component counts allocation attempts
(pairs of find/create calls) actually made. -/
def setupTargetLoop (env : Env) (dev : ScsiDevice) : Nat → Nat → Except Err ScsiDevice × Nat
  | _, 0 => (Except.ok dev, 0)
  | i, Nat.succ n =>
    match env.findNextAvailableTargetID i with
    | Except.error e => (Except.error e, 1)
    | Except.ok tid =>
      match env.createTarget i tid with
      | none => (Except.ok { dev with TargetID := tid }, 1)
      | some _ =>
        let r := setupTargetLoop env dev (i + 1) n
        (r.1, r.2 + 1)

/-- `SetupTarget(dev)` of the source, lines 56-85. -/
def SetupTarget (env : Env) (dev : ScsiDevice) : Option Err × ScsiDevice :=
  match env.startDaemon with
  | some e => (some e, dev)
  | none =>
    match (setupTargetLoop env dev 0 RetryCounts).1 with
    | Except.error e => (some e, dev)
    | Except.ok dev2 =>
      match env.addLun with
      | some e => (some e, dev2)
      | none =>
        match env.bindInitiator with
        | some e => (some e, dev2)
        | none => (none, dev2)

/-- Calls the discovery loop makes, in order: the `DiscoverTarget`
command of attempt `i`, and the `CleanupScsiNodes` workaround run
after attempt `i` failed. -/
inductive DiscoveryOp where
  | discover : Nat → DiscoveryOp
  | cleanup : Nat → DiscoveryOp
  deriving DecidableEq, Repr

/-- Discovery loop of `StartScsi`, lines 113-131.  Carries the
current value of the Go `err` variable (last `DiscoverTarget` result);
the loop breaks exactly when `IsTargetDiscovered` reports true — the
command's own error is not consulted.  On a failed attempt the
node-entry cleanup runs (`CleanupScsiNodes`; its error is only
logged, so the loop does not branch on it) before retrying.  Returns
the `err` value the loop leaves behind and the calls made. -/
def discoveryLoop (env : Env) : Option Err → Nat → Nat → Option Err × List DiscoveryOp
  | e, _, 0 => (e, [])
  | _, i, Nat.succ n =>
    let e := env.discoverTarget i
    if env.isTargetDiscovered i then (e, [DiscoveryOp.discover i])
    else
      let r := discoveryLoop env e (i + 1) n
      (r.1, DiscoveryOp.discover i :: DiscoveryOp.cleanup i :: r.2)

/-- Device readiness poll of `StartScsi`, lines 139-146: `os.Stat`
succeeds and reports a device-mode node. -/
def devicePoll (env : Env) : Nat → Nat → Bool
  | _, 0 => false
  | i, Nat.succ n =>
    if env.statDeviceReady i then true else devicePoll env (i + 1) n

/-- Tail of `StartScsi`, lines 135-150: resolve the device path into
`dev.Device`, then poll for the node to exist and be a device-type
node; exhausting the poll is a hard failure. -/
def startScsiDeviceWait (env : Env) (dev : ScsiDevice) : Option Err × ScsiDevice :=
  match env.getDevice with
  | Except.error e => (some e, dev)
  | Except.ok d =>
    let dev3 := { dev with Device := d }
    if devicePoll env 0 RetryCounts then (none, dev3)
    else (some ("Failed to wait for device " ++ d ++ " to show up"), dev3)

/-- Initiator phase of `StartScsi`, lines 112-150: run the discovery
loop — whose resulting `err` is discarded, because line 132 shadows
`err` with `LoginTarget`'s — then log in once and wait for the
device. -/
def startScsiInitiator (env : Env) (dev : ScsiDevice) : Option Err × ScsiDevice :=
  let _disc := discoveryLoop env none 0 RetryCounts
  match env.loginTarget with
  | some e => (some e, dev)
  | none => startScsiDeviceWait env dev

/-- `StartScsi(dev)` of the source, lines 87-151. -/
def StartScsi (env : Env) (dev : ScsiDevice) : Option Err × ScsiDevice :=
  match env.lockErr with
  | some e => (some ("Fail to lock: " ++ e), dev)
  | none =>
    match env.neErr with
    | some e => (some e, dev)
    | none =>
      match env.checkInitiator with
      | some e => (some e, dev)
      | none =>
        match env.getIP with
        | Except.error e => (some e, dev)
        | Except.ok _ =>
          match SetupTarget env dev with
          | (some e, dev2) => (some e, dev2)
          | (none, dev2) => startScsiInitiator env dev2

/-- Logout retry loop of `LogoutTarget`, lines 188-202.  Carries the
Go `err` value (returned on exhaustion).  Result: final `err`, the
`loggingOut` flag, and how many `iscsi.LogoutTarget` commands were
issued.  "exit status 21" is success; "Timeout executing: " sets
`loggingOut` and breaks without further logout attempts. -/
def logoutLoop (env : Env) : Option Err → Nat → Nat → Option Err × Bool × Nat
  | e, _, 0 => (e, false, 0)
  | _, i, Nat.succ n =>
    match env.logoutTarget i with
    | none => (none, false, 1)
    | some e =>
      if strContains e "exit status 21" then (none, false, 1)
      else if strContains e "Timeout executing: " then (some e, true, 1)
      else
        let r := logoutLoop env (some e) (i + 1) n
        (r.1, r.2.1, r.2.2 + 1)

/-- Logout-completion wait of `LogoutTarget`, lines 206-212: poll
`IsTargetLoggedIn`; the session disappearing clears `err`, exhaustion
leaves it. -/
def logoutWaitLoop (env : Env) : Option Err → Nat → Nat → Option Err
  | e, _, 0 => e
  | e, i, Nat.succ n =>
    if env.pollLoggedIn i then logoutWaitLoop env e (i + 1) n
    else none

/-- Discovered-record removal loop of `LogoutTarget`, lines 228-241:
not discovered is success; otherwise delete, treating "exit status
21" as success and retrying on generic failure; exhaustion leaves the
last error. -/
def deleteDiscoveredLoop (env : Env) : Option Err → Nat → Nat → Option Err
  | e, _, 0 => e
  | e, i, Nat.succ n =>
    if env.logoutDiscovered i then
      match env.deleteDiscoveredTarget i with
      | none => none
      | some e2 =>
        if strContains e2 "exit status 21" then none
        else deleteDiscoveredLoop env (some e2) (i + 1) n
    else none

/-- `LogoutTarget(target)` of the source, lines 170-247.  Note the
whole logout *and* discovered-record removal sequence sits inside
`if iscsi.IsTargetLoggedIn(...)`; a target with no active login
session returns nil immediately. -/
def LogoutTarget (env : Env) (target : String) : Option Err :=
  match env.neErr with
  | some e => some e
  | none =>
    match env.getIP with
    | Except.error e => some e
    | Except.ok _ =>
      match env.checkInitiator with
      | some e => some e
      | none =>
        if env.isTargetLoggedIn then
          let lr := logoutLoop env none 0 RetryCounts
          let e2 := if lr.2.1 then logoutWaitLoop env lr.1 0 RetryCounts else lr.1
          match e2 with
          | some e => some ("Failed to logout target: " ++ e)
          | none => deleteDiscoveredLoop env none 0 RetryCounts
        else none

/-- `StopScsi(volumeName, targetID)` of the source, lines 153-168. -/
def StopScsi (env : Env) (volumeName : String) (targetID : Int) : Res :=
  match env.lockErr with
  | some e => Res.err ("Fail to lock: " ++ e)
  | none =>
    match LogoutTarget env (GetTargetName volumeName) with
    | some e => Res.err ("Fail to logout target: " ++ e)
    | none =>
      match (DeleteTarget env (GetTargetName volumeName) targetID).1 with
      | Res.fatal => Res.fatal
      | Res.err e => Res.err ("Fail to delete target: " ++ e)
      | Res.ok => Res.ok

/-- The calls the discovery loop makes when the target is confirmed
on attempt `i + m`: a discover/cleanup pair for every failed attempt,
then the confirming discover, after which nothing runs. -/
def discTrace (i : Nat) : Nat → List DiscoveryOp
  | 0 => [DiscoveryOp.discover i]
  | Nat.succ m => DiscoveryOp.discover i :: DiscoveryOp.cleanup i :: discTrace (i + 1) m

/-- Recognizes a node-entry cleanup call. -/
def isCleanupOp : DiscoveryOp → Bool
  | DiscoveryOp.cleanup _ => true
  | _ => false

/-- An environment in which every external operation succeeds: the
lock is acquired, the daemon starts, ID `i` is free on attempt `i`,
the target is discovered at once, the device node appears at once,
no session is logged in and no target is live
(`GetTargetTid` returns the `-1` absent sentinel). -/
def envDefault : Env where
  lockErr := none
  neErr := none
  checkInitiator := none
  getIP := Except.ok "1.2.3.4"
  startDaemon := none
  findNextAvailableTargetID := fun i => Except.ok (Int.ofNat i)
  createTarget := fun _ _ => none
  addLun := none
  bindInitiator := none
  discoverTarget := fun _ => none
  isTargetDiscovered := fun _ => true
  cleanupScsiNodes := fun _ => none
  loginTarget := none
  getDevice := Except.ok "/dev/sdx"
  statDeviceReady := fun _ => true
  isTargetLoggedIn := false
  logoutTarget := fun _ => none
  pollLoggedIn := fun _ => false
  logoutDiscovered := fun _ => false
  deleteDiscoveredTarget := fun _ => none
  getTargetTid := Except.ok (-1)
  unbindInitiator := none
  deleteLun := none
  getTargetConnections := Except.ok []
  closeConnection := fun _ _ => none
  deleteTargetCmd := none

/-- A freshly created device for volume `vol_a` (as `NewScsiDevice`
builds it: `TargetID` and `Device` still zero-valued). -/
def dev0 : ScsiDevice where
  Target := GetTargetName "vol_a"
  TargetID := 0
  Device := ""
  BackingFile := "/b.img"
  BSType := "file"
  BSOpts := ""

/-- Claim C1's failing input: every one of the `RetryCounts`
`CreateTarget` attempts fails with a collision error, and `AddLun`
fails with its own distinct error, exposing that the code reaches
`AddLun` after exhausting the allocation retries. -/
def envC1 : Env :=
  { envDefault with
    createTarget := fun _ _ => some "tgtadm: this target already exists"
    addLun := some "lun-error" }

/-- As `envC1` but `AddLun` and `BindInitiator` succeed: `SetupTarget`
then returns success although no target was ever created. -/
def envC1b : Env :=
  { envDefault with
    createTarget := fun _ _ => some "tgtadm: this target already exists" }

/-- Three consecutive creation collisions followed by a success. -/
def envC1c : Env :=
  { envDefault with
    createTarget := fun i _ => if i < 3 then some "tgtadm: this target already exists" else none }

/-- Claim C2's counterexample input: the target has no active login
session but its discovered-target record still exists, and deleting
that record would fail with a generic error. -/
def envC2x : Env :=
  { envDefault with
    isTargetLoggedIn := false
    logoutDiscovered := fun _ => true
    deleteDiscoveredTarget := fun _ => some "iscsiadm: could not execute operation" }

/-- Claim C2's witness input: logged in, logout succeeds at once, the
record stays discovered through every removal attempt and every
removal attempt fails with a generic (non-"exit status 21") error. -/
def envW2 : Env :=
  { envDefault with
    isTargetLoggedIn := true
    logoutTarget := fun _ => none
    logoutDiscovered := fun _ => true
    deleteDiscoveredTarget := fun _ => some "iscsiadm: database failure" }

/-- Claim C3's counterexample input: every discovery attempt errors
and the target is never confirmed discovered, while login, device
resolution and the device poll all succeed. -/
def envC3x : Env :=
  { envDefault with
    discoverTarget := fun _ => some "iscsiadm: discovery failed"
    isTargetDiscovered := fun _ => false }

/-- Claim C3's witness input: discovery never confirms and login
fails with its own error. -/
def envW3 : Env :=
  { envDefault with
    discoverTarget := fun _ => some "iscsiadm: discovery failed"
    isTargetDiscovered := fun _ => false
    loginTarget := some "iscsiadm: login failed" }

/-- Claim C4's witness input: a live target with ID 7 where the
caller expects ID 3. -/
def envW4 : Env :=
  { envDefault with getTargetTid := Except.ok 7 }

/-- Claim C7's witness input: the first two discovery attempts report
not-discovered, the third confirms. -/
def envW7 : Env :=
  { envDefault with
    isTargetDiscovered := fun i => i == 2
    discoverTarget := fun _ => some "iscsiadm: discovery failed" }

/-- Claim C8's witness input: logged in, a generic logout failure on
attempt 0, a command timeout on attempt 1, and a session that never
disappears from live state. -/
def envW8 : Env :=
  { envDefault with
    isTargetLoggedIn := true
    logoutTarget := fun i =>
      if i = 0 then some "generic failure" else some "Timeout executing: logout"
    pollLoggedIn := fun _ => true }

/-- Claim C9's witness input: the device node never shows up. -/
def envW9 : Env :=
  { envDefault with statDeviceReady := fun _ => false }

/-- Claim C10's witness input: the live-target ID lookup itself
errors. -/
def envW10 : Env :=
  { envDefault with getTargetTid := Except.error "tgtadm: connection refused" }

/-! ## Helper lemmas -/

/-- A target with no active login session makes `LogoutTarget` a
no-op success: the whole logout/removal sequence is skipped. -/
theorem LogoutTarget_not_logged_in (env : Env) (t s : String)
    (hne : env.neErr = none) (hip : env.getIP = Except.ok s)
    (hchk : env.checkInitiator = none) (hli : env.isTargetLoggedIn = false) :
    LogoutTarget env t = none := by
  simp [LogoutTarget, hne, hip, hchk, hli]

/-- An absent target (`GetTargetTid` gives the `-1` sentinel) makes
`DeleteTarget` a no-op success performing no teardown step. -/
theorem DeleteTarget_absent (env : Env) (t : String) (targetID : Int)
    (htid : env.getTargetTid = Except.ok (-1)) :
    DeleteTarget env t targetID = (Res.ok, []) := by
  simp [DeleteTarget, htid]

/-- A failing `GetTargetTid` lookup also skips the whole teardown and
returns success. -/
theorem DeleteTarget_lookup_error (env : Env) (t : String) (targetID : Int) (e : Err)
    (htid : env.getTargetTid = Except.error e) :
    DeleteTarget env t targetID = (Res.ok, []) := by
  simp [DeleteTarget, htid]

/-! ## Claim C5 -/

/-- Claim C5: the derived target identifier is the fixed authority
prefix `iqn.2014-09.com.rancher:` followed by the volume name with
every `_` replaced by `:`; the mapping is deterministic, and it is
injective over names of equal length whose `_` positions agree (names
that differ only by characters other than `_`). -/
theorem claim_c5 (n₁ n₂ : String) :
    (GetTargetName n₁).data
      = "iqn.2014-09.com.rancher:".data ++ n₁.data.map replUnderscore
    ∧ (n₁ = n₂ → GetTargetName n₁ = GetTargetName n₂)
    ∧ (n₁.data.length = n₂.data.length →
        (∀ (i : Nat) (h₁ : i < n₁.data.length) (h₂ : i < n₂.data.length),
          n₁.data[i] = '_' ↔ n₂.data[i] = '_') →
        GetTargetName n₁ = GetTargetName n₂ → n₁ = n₂) := by
  refine ⟨rfl, fun h => by rw [h], fun hlen hmask heq => ?_⟩
  have hdata : "iqn.2014-09.com.rancher:".data ++ n₁.data.map replUnderscore
      = "iqn.2014-09.com.rancher:".data ++ n₂.data.map replUnderscore :=
    congrArg String.data heq
  have hmap : n₁.data.map replUnderscore = n₂.data.map replUnderscore :=
    List.append_cancel_left hdata
  have hd : n₁.data = n₂.data := by
    apply List.ext_getElem hlen
    intro i h₁ h₂
    have hm : replUnderscore n₁.data[i] = replUnderscore n₂.data[i] := by
      have e₁ : n₁.data[i]? = some n₁.data[i] := List.getElem?_eq_getElem h₁
      have e₂ : n₂.data[i]? = some n₂.data[i] := List.getElem?_eq_getElem h₂
      have t := congrArg (fun l => l[i]?) hmap
      simp only [List.getElem?_map, e₁, e₂, Option.map_some] at t
      simpa using t
    by_cases hu : n₁.data[i] = '_'
    · have hu₂ : n₂.data[i] = '_' := (hmask i h₁ h₂).mp hu
      rw [hu, hu₂]
    · have hu₂ : ¬n₂.data[i] = '_' := fun h => hu ((hmask i h₁ h₂).mpr h)
      simpa [replUnderscore, hu, hu₂] using hm
  cases n₁
  cases n₂
  exact congrArg String.mk hd

/-- Witness for C5 at the concrete volume name `vol_a`. -/
theorem claim_c5_witness :
    (GetTargetName "vol_a").data
      = "iqn.2014-09.com.rancher:".data ++ "vol_a".data.map replUnderscore
    ∧ "vol_a" = "vol_a" :=
  ⟨(claim_c5 "vol_a" "vol_a").1,
   (claim_c5 "vol_a" "vol_a").2.2 rfl (by decide) rfl⟩

/-! ## Claim C4 -/

/-- Claim C4: when `DeleteTarget` resolves a live target whose ID
differs from the caller's expected `targetID`, it hits
`logrus.Fatalf` (process termination) and performs no teardown step:
no unbind, LUN delete, connection close, or target delete. -/
theorem claim_c4 (env : Env) (target : String) (targetID tid : Int)
    (htid : env.getTargetTid = Except.ok tid)
    (habsent : tid ≠ -1) (hmismatch : tid ≠ targetID) :
    DeleteTarget env target targetID = (Res.fatal, []) := by
  simp [DeleteTarget, htid, habsent, hmismatch]

/-- Witness for C4: live target ID 7, expected ID 3. -/
theorem claim_c4_witness :
    DeleteTarget envW4 (GetTargetName "vol_a") 3 = (Res.fatal, []) :=
  claim_c4 envW4 (GetTargetName "vol_a") 3 7 rfl (by decide) (by decide)

/-! ## Claim C6 -/

/-- Claim C6: `DeleteTarget` on an absent target (`GetTargetTid`
returns the `-1` sentinel) is a no-op success performing no teardown
step, so `StopScsi` on an already-absent, not-logged-in target
succeeds; since the no-op leaves the environment unchanged, a second
identical invocation succeeds as well (both conjuncts record the two
back-to-back calls). -/
theorem claim_c6 (env : Env) (volumeName s : String) (targetID : Int)
    (hlock : env.lockErr = none) (hne : env.neErr = none)
    (hip : env.getIP = Except.ok s) (hchk : env.checkInitiator = none)
    (hli : env.isTargetLoggedIn = false)
    (htid : env.getTargetTid = Except.ok (-1)) :
    DeleteTarget env (GetTargetName volumeName) targetID = (Res.ok, [])
    ∧ StopScsi env volumeName targetID = Res.ok
    ∧ StopScsi env volumeName targetID = Res.ok := by
  have hl := LogoutTarget_not_logged_in env (GetTargetName volumeName) s hne hip hchk hli
  have hd := DeleteTarget_absent env (GetTargetName volumeName) targetID htid
  refine ⟨hd, ?_, ?_⟩ <;> simp [StopScsi, hlock, hl, hd]

/-- Witness for C6 in the all-healthy environment, where the target
is absent and nothing is logged in. -/
theorem claim_c6_witness :
    DeleteTarget envDefault (GetTargetName "vol_a") 3 = (Res.ok, [])
    ∧ StopScsi envDefault "vol_a" 3 = Res.ok
    ∧ StopScsi envDefault "vol_a" 3 = Res.ok :=
  claim_c6 envDefault "vol_a" "1.2.3.4" 3 rfl rfl rfl rfl rfl rfl

/-! ## Claim C10 -/

/-- Claim C10: when the live-target ID lookup (`GetTargetTid`) itself
errors, `DeleteTarget` returns success without performing any
teardown step, so `StopScsi` reports success even though the target
may still exist on the host. -/
theorem claim_c10 (env : Env) (volumeName s : String) (targetID : Int) (e : Err)
    (hlock : env.lockErr = none) (hne : env.neErr = none)
    (hip : env.getIP = Except.ok s) (hchk : env.checkInitiator = none)
    (hli : env.isTargetLoggedIn = false)
    (htid : env.getTargetTid = Except.error e) :
    DeleteTarget env (GetTargetName volumeName) targetID = (Res.ok, [])
    ∧ StopScsi env volumeName targetID = Res.ok := by
  have hl := LogoutTarget_not_logged_in env (GetTargetName volumeName) s hne hip hchk hli
  have hd := DeleteTarget_lookup_error env (GetTargetName volumeName) targetID e htid
  exact ⟨hd, by simp [StopScsi, hlock, hl, hd]⟩

/-- Witness for C10: `GetTargetTid` fails with a connection error. -/
theorem claim_c10_witness :
    DeleteTarget envW10 (GetTargetName "vol_a") 3 = (Res.ok, [])
    ∧ StopScsi envW10 "vol_a" 3 = Res.ok :=
  claim_c10 envW10 "vol_a" "1.2.3.4" 3 "tgtadm: connection refused" rfl rfl rfl rfl rfl rfl

/-! ## Discovery-loop lemmas and Claim C7 -/

/-- If the first `k` discovery attempts report not-discovered and
attempt `k` confirms, the loop stops at attempt `k` carrying that
attempt's `DiscoverTarget` result — whatever it is — and makes
exactly the calls `discTrace`. -/
theorem discoveryLoop_confirmed (env : Env) :
    ∀ (k i n : Nat) (c : Option Err), k < n →
      (∀ j, j < k → env.isTargetDiscovered (i + j) = false) →
      env.isTargetDiscovered (i + k) = true →
      discoveryLoop env c i n = (env.discoverTarget (i + k), discTrace i k) := by
  intro k
  induction k with
  | zero =>
    intro i n c hn hb hs
    match n, hn with
    | Nat.succ n, _ =>
      rw [show i + 0 = i from rfl] at hs
      simp [discoveryLoop, hs, discTrace]
  | succ k ih =>
    intro i n c hn hb hs
    match n, hn with
    | Nat.succ n, hn =>
      have h0 : env.isTargetDiscovered i = false := by
        have := hb 0 (Nat.succ_pos k)
        rwa [show i + 0 = i from rfl] at this
      have hb2 : ∀ j, j < k → env.isTargetDiscovered ((i + 1) + j) = false := by
        intro j hj
        have := hb (j + 1) (by omega)
        rwa [show i + (j + 1) = (i + 1) + j by omega] at this
      have hs2 : env.isTargetDiscovered ((i + 1) + k) = true := by
        rwa [show i + (k + 1) = (i + 1) + k by omega] at hs
      have hrec := ih (i + 1) n (env.discoverTarget i) (by omega) hb2 hs2
      simp only [discoveryLoop, h0]
      rw [show (i + 1) + k = i + (k + 1) by omega] at hrec
      simp [hrec, discTrace]

/-- `discTrace i m` contains exactly `m` cleanup calls. -/
theorem discTrace_countP : ∀ (m i : Nat), List.countP isCleanupOp (discTrace i m) = m := by
  intro m
  induction m with
  | zero => intro i; simp [discTrace, isCleanupOp]
  | succ m ih => intro i; simp [discTrace, List.countP_cons, isCleanupOp, ih]

/-- The cleanup calls in `discTrace i m` are exactly those of the `m`
failed attempts `i, …, i + m - 1`. -/
theorem discTrace_cleanup_mem :
    ∀ (m i j : Nat), DiscoveryOp.cleanup j ∈ discTrace i m ↔ (i ≤ j ∧ j < i + m) := by
  intro m
  induction m with
  | zero => intro i j; simp [discTrace]
  | succ m ih => intro i j; simp [discTrace, ih]; omega

/-- Claim C7: in `StartScsi`'s discovery loop, success is declared
exactly when `IsTargetDiscovered` confirms the target — the result
carries attempt `k`'s `DiscoverTarget` value whether or not it is an
error — the cleanup workaround runs exactly once after each of the
`k` failed attempts, and no cleanup call follows the confirming
attempt (the cleanup calls in the trace are exactly those with index
below `k`). -/
theorem claim_c7 (env : Env) (k : Nat) (hk : k < RetryCounts)
    (hb : ∀ j, j < k → env.isTargetDiscovered j = false)
    (hs : env.isTargetDiscovered k = true) :
    discoveryLoop env none 0 RetryCounts = (env.discoverTarget k, discTrace 0 k)
    ∧ List.countP isCleanupOp (discTrace 0 k) = k
    ∧ (∀ j, DiscoveryOp.cleanup j ∈ discTrace 0 k ↔ j < k) := by
  refine ⟨?_, discTrace_countP k 0, fun j => by simpa using discTrace_cleanup_mem k 0 j⟩
  have := discoveryLoop_confirmed env k 0 RetryCounts none hk
    (fun j hj => by simpa using hb j hj) (by simpa using hs)
  simpa using this

/-- Witness for C7: the first two discovery attempts fail, the third
confirms; the cleanup pass runs exactly twice. -/
theorem claim_c7_witness :
    discoveryLoop envW7 none 0 RetryCounts = (envW7.discoverTarget 2, discTrace 0 2)
    ∧ List.countP isCleanupOp (discTrace 0 2) = 2 :=
  ⟨(claim_c7 envW7 2 (by decide) (fun j hj => by interval_cases j <;> rfl) rfl).1,
   (claim_c7 envW7 2 (by decide) (fun j hj => by interval_cases j <;> rfl) rfl).2.1⟩

/-! ## Logout-loop lemmas -/

/-- A logout command that returns nil on attempt `i` ends the loop at
once with `err` cleared. -/
theorem logoutLoop_success (env : Env) (i n : Nat) (c : Option Err)
    (hn : 0 < n) (h : env.logoutTarget i = none) :
    logoutLoop env c i n = (none, false, 1) := by
  match n, hn with
  | Nat.succ n, _ => simp [logoutLoop, h]

/-- A logout error containing "exit status 21" (not found) on attempt
`i` is treated as success: the loop ends with `err` cleared. -/
theorem logoutLoop_21 (env : Env) (i n : Nat) (c : Option Err) (g : Err)
    (hn : 0 < n) (h : env.logoutTarget i = some g)
    (h21 : strContains g "exit status 21" = true) :
    logoutLoop env c i n = (none, false, 1) := by
  match n, hn with
  | Nat.succ n, _ => simp [logoutLoop, h, h21]

/-- After `j` generic logout failures, a logout error reported as a
command timeout on attempt `i + j` stops the loop with the
`loggingOut` flag set: exactly `j + 1` logout commands are issued and
no further logout is retried. -/
theorem logoutLoop_timeout (env : Env) (e : Err)
    (he21 : strContains e "exit status 21" = false)
    (heT : strContains e "Timeout executing: " = true) :
    ∀ (j i n : Nat) (c : Option Err), j < n →
      (∀ m, m < j → ∃ g, env.logoutTarget (i + m) = some g
          ∧ strContains g "exit status 21" = false
          ∧ strContains g "Timeout executing: " = false) →
      env.logoutTarget (i + j) = some e →
      logoutLoop env c i n = (some e, true, j + 1) := by
  intro j
  induction j with
  | zero =>
    intro i n c hn hg hj
    match n, hn with
    | Nat.succ n, _ =>
      rw [show i + 0 = i from rfl] at hj
      simp [logoutLoop, hj, he21, heT]
  | succ j ih =>
    intro i n c hn hg hj
    match n, hn with
    | Nat.succ n, hn =>
      obtain ⟨g, hg0, hg1, hg2⟩ := hg 0 (Nat.succ_pos j)
      rw [show i + 0 = i from rfl] at hg0
      have hg' : ∀ m, m < j → ∃ g2, env.logoutTarget ((i + 1) + m) = some g2
          ∧ strContains g2 "exit status 21" = false
          ∧ strContains g2 "Timeout executing: " = false := by
        intro m hm
        have := hg (m + 1) (by omega)
        rwa [show i + (m + 1) = (i + 1) + m by omega] at this
      have hj' : env.logoutTarget ((i + 1) + j) = some e := by
        rwa [show i + (j + 1) = (i + 1) + j by omega] at hj
      have hrec := ih (i + 1) n (some g) (by omega) hg' hj'
      simp [logoutLoop, hg0, hg1, hg2, hrec]

/-- If some poll within the bound sees the session gone, the
logout-completion wait clears the carried error. -/
theorem logoutWaitLoop_escape (env : Env) :
    ∀ (n i : Nat) (c : Option Err),
      (∃ m, m < n ∧ env.pollLoggedIn (i + m) = false) →
      logoutWaitLoop env c i n = none := by
  intro n
  induction n with
  | zero =>
    intro i c h
    obtain ⟨m, hm, _⟩ := h
    exact absurd hm (Nat.not_lt_zero m)
  | succ n ih =>
    intro i c h
    obtain ⟨m, hm, hp⟩ := h
    by_cases h0 : env.pollLoggedIn i = true
    · simp only [logoutWaitLoop, h0, if_pos]
      apply ih
      rcases m with _ | m
      · rw [show i + 0 = i from rfl] at hp
        rw [h0] at hp
        exact absurd hp (by simp)
      · exact ⟨m, by omega, by rwa [show (i + 1) + m = i + (m + 1) by omega]⟩
    · have h0f : env.pollLoggedIn i = false := by
        cases hpl : env.pollLoggedIn i
        · rfl
        · exact absurd hpl h0
      simp [logoutWaitLoop, h0f]

/-- If the session survives every poll within the bound, the
logout-completion wait leaves the carried error in place. -/
theorem logoutWaitLoop_exhaust (env : Env) :
    ∀ (n i : Nat) (c : Option Err),
      (∀ m, m < n → env.pollLoggedIn (i + m) = true) →
      logoutWaitLoop env c i n = c := by
  intro n
  induction n with
  | zero => intro i c _; rfl
  | succ n ih =>
    intro i c h
    have h0 : env.pollLoggedIn i = true := by
      have := h 0 (Nat.succ_pos n)
      rwa [show i + 0 = i from rfl] at this
    have h' : ∀ m, m < n → env.pollLoggedIn ((i + 1) + m) = true := by
      intro m hm
      have := h (m + 1) (by omega)
      rwa [show i + (m + 1) = (i + 1) + m by omega] at this
    simp [logoutWaitLoop, h0, ih (i + 1) c h']

/-- A record that is no longer discovered at the head of the removal
loop is immediate success. -/
theorem deleteDiscoveredLoop_not_discovered (env : Env) (i n : Nat) (c : Option Err)
    (hn : 0 < n) (h : env.logoutDiscovered i = false) :
    deleteDiscoveredLoop env c i n = none := by
  match n, hn with
  | Nat.succ n, _ => simp [deleteDiscoveredLoop, h]

/-- A removal error containing "exit status 21" (no record found) is
treated as success. -/
theorem deleteDiscoveredLoop_21 (env : Env) (i n : Nat) (c : Option Err) (g : Err)
    (hn : 0 < n) (hd : env.logoutDiscovered i = true)
    (h : env.deleteDiscoveredTarget i = some g)
    (h21 : strContains g "exit status 21" = true) :
    deleteDiscoveredLoop env c i n = none := by
  match n, hn with
  | Nat.succ n, _ => simp [deleteDiscoveredLoop, hd, h, h21]

/-- If the record stays discovered and every removal attempt within
the bound fails with a generic error, the loop ends with the last
attempt's error. -/
theorem deleteDiscoveredLoop_exhaust (env : Env) :
    ∀ (n i : Nat) (c : Option Err), 0 < n →
      (∀ m, m < n → env.logoutDiscovered (i + m) = true) →
      (∀ m, m < n → ∃ g, env.deleteDiscoveredTarget (i + m) = some g
          ∧ strContains g "exit status 21" = false) →
      deleteDiscoveredLoop env c i n = env.deleteDiscoveredTarget (i + n - 1) := by
  intro n
  induction n with
  | zero => intro i c h; exact absurd h (by omega)
  | succ n ih =>
    intro i c _ hd hg
    have hd0 : env.logoutDiscovered i = true := by
      have := hd 0 (Nat.succ_pos n)
      rwa [show i + 0 = i from rfl] at this
    obtain ⟨g, hg0, hg1⟩ := hg 0 (Nat.succ_pos n)
    rw [show i + 0 = i from rfl] at hg0
    rcases Nat.eq_zero_or_pos n with hz | hpos
    · subst hz
      simp [deleteDiscoveredLoop, hd0, hg0, hg1]
    · have hd' : ∀ m, m < n → env.logoutDiscovered ((i + 1) + m) = true := by
        intro m hm
        have := hd (m + 1) (by omega)
        rwa [show i + (m + 1) = (i + 1) + m by omega] at this
      have hg' : ∀ m, m < n → ∃ g2, env.deleteDiscoveredTarget ((i + 1) + m) = some g2
          ∧ strContains g2 "exit status 21" = false := by
        intro m hm
        have := hg (m + 1) (by omega)
        rwa [show i + (m + 1) = (i + 1) + m by omega] at this
      have hrec := ih (i + 1) (some g) hpos hd' hg'
      simp only [deleteDiscoveredLoop, hd0, hg0, hg1]
      simp [hg1, hrec]

/-- In the logged-in path, `LogoutTarget` is the logout loop, then —
when the `loggingOut` flag is set — the completion wait, then either
the wrapped error or the discovered-record removal loop. -/
theorem LogoutTarget_logged_in (env : Env) (t s : String)
    (hne : env.neErr = none) (hip : env.getIP = Except.ok s)
    (hchk : env.checkInitiator = none) (hli : env.isTargetLoggedIn = true) :
    LogoutTarget env t =
      (match (if (logoutLoop env none 0 RetryCounts).2.1
              then logoutWaitLoop env (logoutLoop env none 0 RetryCounts).1 0 RetryCounts
              else (logoutLoop env none 0 RetryCounts).1) with
       | some e => some ("Failed to logout target: " ++ e)
       | none => deleteDiscoveredLoop env none 0 RetryCounts) := by
  simp [LogoutTarget, hne, hip, hchk, hli]

/-! ## Claim C8 -/

/-- Claim C8: in `LogoutTarget`'s logout retry loop, an error
containing "exit status 21" is treated as success (last conjunct, for
any environment); an error reported as a command timeout stops the
logout retries after exactly `j + 1` logout commands and transitions
into polling the live login state up to the retry bound: if some poll
within the bound sees the session gone, the call proceeds to the
discovered-record removal phase, and only if the session never
disappears is the (wrapped) timeout error propagated. -/
theorem claim_c8 (env : Env) (t s : String) (j : Nat) (e : Err)
    (hne : env.neErr = none) (hip : env.getIP = Except.ok s)
    (hchk : env.checkInitiator = none) (hli : env.isTargetLoggedIn = true)
    (hj : j < RetryCounts)
    (hgen : ∀ m, m < j → ∃ g, env.logoutTarget m = some g
        ∧ strContains g "exit status 21" = false
        ∧ strContains g "Timeout executing: " = false)
    (hjt : env.logoutTarget j = some e)
    (he21 : strContains e "exit status 21" = false)
    (heT : strContains e "Timeout executing: " = true) :
    logoutLoop env none 0 RetryCounts = (some e, true, j + 1)
    ∧ ((∃ m, m < RetryCounts ∧ env.pollLoggedIn m = false) →
        LogoutTarget env t = deleteDiscoveredLoop env none 0 RetryCounts)
    ∧ ((∀ m, m < RetryCounts → env.pollLoggedIn m = true) →
        LogoutTarget env t = some ("Failed to logout target: " ++ e))
    ∧ (∀ (env2 : Env) (g : Err), env2.logoutTarget 0 = some g →
        strContains g "exit status 21" = true →
        logoutLoop env2 none 0 RetryCounts = (none, false, 1)) := by
  have hloop : logoutLoop env none 0 RetryCounts = (some e, true, j + 1) :=
    logoutLoop_timeout env e he21 heT j 0 RetryCounts none hj
      (fun m hm => by simpa using hgen m hm) (by simpa using hjt)
  have hbase := LogoutTarget_logged_in env t s hne hip hchk hli
  refine ⟨hloop, fun hesc => ?_, fun hexh => ?_,
    fun env2 g hg h21 => logoutLoop_21 env2 0 RetryCounts none g (by decide) hg h21⟩
  · have hwait : logoutWaitLoop env (some e) 0 RetryCounts = none :=
      logoutWaitLoop_escape env RetryCounts 0 (some e)
        (by obtain ⟨m, hm, hp⟩ := hesc; exact ⟨m, hm, by simpa using hp⟩)
    rw [hbase, hloop]
    simp [hwait]
  · have hwait : logoutWaitLoop env (some e) 0 RetryCounts = some e :=
      logoutWaitLoop_exhaust env RetryCounts 0 (some e)
        (fun m hm => by simpa using hexh m hm)
    rw [hbase, hloop]
    simp [hwait]

/-- Witness for C8: a generic failure on attempt 0, a timeout on
attempt 1, and a session that survives every poll: exactly two logout
commands run and the wrapped timeout error is returned. -/
theorem claim_c8_witness :
    logoutLoop envW8 none 0 RetryCounts = (some "Timeout executing: logout", true, 2)
    ∧ LogoutTarget envW8 "iqn.2014-09.com.rancher:vol:a"
        = some ("Failed to logout target: " ++ "Timeout executing: logout") := by
  have h := claim_c8 envW8 "iqn.2014-09.com.rancher:vol:a" "1.2.3.4" 1
    "Timeout executing: logout" rfl rfl rfl rfl (by decide)
    (fun m hm => ⟨"generic failure", by interval_cases m <;> exact ⟨rfl, rfl, rfl⟩⟩)
    rfl rfl rfl
  exact ⟨h.1, h.2.2.1 (fun m hm => rfl)⟩

/-! ## Claim C2 -/

/-- Counterexample to claim C2 as stated: in `envC2x` the target has
no active login session — logout is "unnecessary" — yet its
discovered-target record exists (`logoutDiscovered 0 = true`) and
every removal attempt would fail with a generic error; still
`LogoutTarget` returns success immediately.  Had the
discovered-record removal run as the claim requires, the result would
have been the retry-exhausted removal error, not `none`: the removal
sequence sits inside the logged-in branch and is skipped entirely. -/
theorem claim_c2_counterexample :
    LogoutTarget envC2x "iqn.2014-09.com.rancher:vol:a" = none
    ∧ envC2x.isTargetLoggedIn = false
    ∧ envC2x.logoutDiscovered 0 = true
    ∧ envC2x.deleteDiscoveredTarget 0 = some "iscsiadm: could not execute operation" :=
  ⟨rfl, rfl, rfl, rfl⟩

/-- Claim C2 (amended): the discovered-target record removal runs
only in the logged-in path.  If the target has no active login
session, `LogoutTarget` is a no-op success that leaves the record in
place; in the logged-in path, after logout is confirmed the removal
loop runs: a record that is not discovered is success, an "exit
status 21" removal error is success, and if the record stays
discovered with every removal attempt failing generically, the bound
is exhausted and the last removal error is propagated. -/
theorem claim_c2 (env : Env) (t s : String)
    (hne : env.neErr = none) (hip : env.getIP = Except.ok s)
    (hchk : env.checkInitiator = none) :
    (env.isTargetLoggedIn = false → LogoutTarget env t = none)
    ∧ (env.isTargetLoggedIn = true → env.logoutTarget 0 = none →
        (LogoutTarget env t = deleteDiscoveredLoop env none 0 RetryCounts
        ∧ (env.logoutDiscovered 0 = false →
            deleteDiscoveredLoop env none 0 RetryCounts = none)
        ∧ (∀ g, env.logoutDiscovered 0 = true →
            env.deleteDiscoveredTarget 0 = some g →
            strContains g "exit status 21" = true →
            deleteDiscoveredLoop env none 0 RetryCounts = none)
        ∧ ((∀ m, m < RetryCounts → env.logoutDiscovered m = true) →
           (∀ m, m < RetryCounts → ∃ g, env.deleteDiscoveredTarget m = some g
               ∧ strContains g "exit status 21" = false) →
           deleteDiscoveredLoop env none 0 RetryCounts
             = env.deleteDiscoveredTarget (RetryCounts - 1)))) := by
  refine ⟨fun hli => LogoutTarget_not_logged_in env t s hne hip hchk hli,
    fun hli hl0 => ⟨?_, ?_, ?_, ?_⟩⟩
  · have hbase := LogoutTarget_logged_in env t s hne hip hchk hli
    have hloop : logoutLoop env none 0 RetryCounts = (none, false, 1) :=
      logoutLoop_success env 0 RetryCounts none (by decide) hl0
    rw [hbase, hloop]
    simp
  · intro hnd
    exact deleteDiscoveredLoop_not_discovered env 0 RetryCounts none (by decide) hnd
  · intro g hd hdel h21
    exact deleteDiscoveredLoop_21 env 0 RetryCounts none g (by decide) hd hdel h21
  · intro hd hg
    have := deleteDiscoveredLoop_exhaust env RetryCounts 0 none (by decide)
      (fun m hm => by simpa using hd m hm) (fun m hm => by simpa using hg m hm)
    simpa using this

/-- Witness for C2 (amended) in the logged-in path with a record that
stays discovered and generically failing removals: the last removal
error is propagated. -/
theorem claim_c2_witness :
    LogoutTarget envW2 "iqn.2014-09.com.rancher:vol:a"
      = deleteDiscoveredLoop envW2 none 0 RetryCounts
    ∧ deleteDiscoveredLoop envW2 none 0 RetryCounts
      = envW2.deleteDiscoveredTarget (RetryCounts - 1) := by
  have h := (claim_c2 envW2 "iqn.2014-09.com.rancher:vol:a" "1.2.3.4" rfl rfl rfl).2 rfl rfl
  exact ⟨h.1, h.2.2.2 (fun m hm => rfl)
    (fun m hm => ⟨"iscsiadm: database failure", rfl, rfl⟩)⟩

/-! ## StartScsi lemmas, Claims C9, C3 and C1 -/

/-- The device poll succeeds exactly when some attempt within the
bound sees a ready device node. -/
theorem devicePoll_eq_true_iff (env : Env) :
    ∀ (n i : Nat), devicePoll env i n = true
      ↔ ∃ m, m < n ∧ env.statDeviceReady (i + m) = true := by
  intro n
  induction n with
  | zero => intro i; simp [devicePoll]
  | succ n ih =>
    intro i
    by_cases h : env.statDeviceReady i = true
    · simp only [devicePoll, h, if_pos]
      constructor
      · intro _
        exact ⟨0, Nat.succ_pos n, by simpa using h⟩
      · intro _
        trivial
    · have hf : env.statDeviceReady i = false := by
        cases hx : env.statDeviceReady i
        · rfl
        · exact absurd hx h
      simp only [devicePoll, hf]
      rw [if_neg (by simp)]
      rw [ih (i + 1)]
      constructor
      · rintro ⟨m, hm, hr⟩
        exact ⟨m + 1, by omega, by rwa [show i + (m + 1) = (i + 1) + m by omega]⟩
      · rintro ⟨m, hm, hr⟩
        rcases m with _ | m
        · rw [show i + 0 = i from rfl] at hr
          rw [hr] at hf
          exact absurd hf (by simp)
        · exact ⟨m, by omega, by rwa [show (i + 1) + m = i + (m + 1) by omega]⟩

/-- When the prologue (lock, executor, initiator check, IP) and
`SetupTarget` succeed, `StartScsi` is the initiator phase run on the
device `SetupTarget` produced. -/
theorem StartScsi_prologue (env : Env) (dev : ScsiDevice) (s : String)
    (hl : env.lockErr = none) (hn : env.neErr = none)
    (hc : env.checkInitiator = none) (hip : env.getIP = Except.ok s)
    (hset : (SetupTarget env dev).1 = none) :
    StartScsi env dev = startScsiInitiator env (SetupTarget env dev).2 := by
  rcases hst : SetupTarget env dev with ⟨r, dev2⟩
  rw [hst] at hset
  simp at hset
  subst hset
  simp [StartScsi, hl, hn, hc, hip, hst]

/-- Claim C9: `StartScsi` returns success only with `dev.Device`
populated by the resolved device path and only after some poll
attempt within the bound observed a ready device node; conversely, if
no poll attempt within the bound ever observes a ready device node,
`StartScsi` returns an error. -/
theorem claim_c9 (env : Env) (dev : ScsiDevice) :
    ((StartScsi env dev).1 = none →
      ∃ d, env.getDevice = Except.ok d
        ∧ (StartScsi env dev).2.Device = d
        ∧ ∃ m, m < RetryCounts ∧ env.statDeviceReady m = true)
    ∧ ((∀ m, m < RetryCounts → env.statDeviceReady m = false) →
        (StartScsi env dev).1 ≠ none) := by
  have hA : (StartScsi env dev).1 = none →
      ∃ d, env.getDevice = Except.ok d
        ∧ (StartScsi env dev).2.Device = d
        ∧ ∃ m, m < RetryCounts ∧ env.statDeviceReady m = true := by
    intro h
    cases hl : env.lockErr with
    | some e => simp [StartScsi, hl] at h
    | none =>
    cases hn : env.neErr with
    | some e => simp [StartScsi, hl, hn] at h
    | none =>
    cases hc : env.checkInitiator with
    | some e => simp [StartScsi, hl, hn, hc] at h
    | none =>
    cases hip : env.getIP with
    | error e => simp [StartScsi, hl, hn, hc, hip] at h
    | ok s =>
    rcases hst : SetupTarget env dev with ⟨r, dev2⟩
    cases r with
    | some e => simp [StartScsi, hl, hn, hc, hip, hst] at h
    | none =>
    have hred : StartScsi env dev = startScsiInitiator env dev2 := by
      have := StartScsi_prologue env dev s hl hn hc hip (by rw [hst])
      rwa [hst] at this
    rw [hred] at h ⊢
    cases hlog : env.loginTarget with
    | some e => simp [startScsiInitiator, hlog] at h
    | none =>
    cases hgd : env.getDevice with
    | error e => simp [startScsiInitiator, startScsiDeviceWait, hlog, hgd] at h
    | ok d =>
    by_cases hdp : devicePoll env 0 RetryCounts = true
    · refine ⟨d, rfl, ?_, ?_⟩
      · simp [startScsiInitiator, startScsiDeviceWait, hlog, hgd, hdp]
      · have := (devicePoll_eq_true_iff env RetryCounts 0).mp hdp
        obtain ⟨m, hm, hr⟩ := this
        exact ⟨m, hm, by simpa using hr⟩
    · have hdpf : devicePoll env 0 RetryCounts = false := by
        cases hx : devicePoll env 0 RetryCounts
        · rfl
        · exact absurd hx hdp
      simp [startScsiInitiator, startScsiDeviceWait, hlog, hgd, hdpf] at h
  refine ⟨hA, fun hall h => ?_⟩
  obtain ⟨d, _, _, m, hm, hr⟩ := hA h
  rw [hall m hm] at hr
  exact absurd hr (by simp)

/-- Witness for C9: the device node never becomes ready, so
`StartScsi` does not succeed. -/
theorem claim_c9_witness : (StartScsi envW9 dev0).1 ≠ none :=
  (claim_c9 envW9 dev0).2 (fun m hm => rfl)

/-- Counterexample to claim C3 as stated: in `envC3x` every discovery
attempt errors with "iscsiadm: discovery failed" and
`IsTargetDiscovered` never confirms the target, so the bounded
discovery retry loop is exhausted without confirmation; yet
`StartScsi` returns success (`none`) — the last discovery error is
not surfaced.  The `err` carrying it is shadowed by `LoginTarget`'s
at line 132 and then overwritten, so the loop's outcome is dropped
before login. -/
theorem claim_c3_counterexample :
    (StartScsi envC3x dev0).1 = none
    ∧ envC3x.isTargetDiscovered 0 = false
    ∧ envC3x.discoverTarget (RetryCounts - 1) = some "iscsiadm: discovery failed" :=
  ⟨rfl, rfl, rfl⟩

/-- Claim C3 (amended): when the bounded discovery retry loop is
exhausted without `IsTargetDiscovered` ever confirming the target,
`StartScsi` does not surface the last discovery error: it proceeds
to login regardless, so the call fails with the login error when
login fails, and succeeds outright when login, device resolution and
the device poll succeed — for every value of the per-attempt
discovery errors. -/
theorem claim_c3 (env : Env) (dev : ScsiDevice) (s : String)
    (hl : env.lockErr = none) (hn : env.neErr = none)
    (hc : env.checkInitiator = none) (hip : env.getIP = Except.ok s)
    (hset : (SetupTarget env dev).1 = none)
    (hexh : ∀ i, i < RetryCounts → env.isTargetDiscovered i = false) :
    (∀ e, env.loginTarget = some e → (StartScsi env dev).1 = some e)
    ∧ (∀ d, env.loginTarget = none → env.getDevice = Except.ok d →
        devicePoll env 0 RetryCounts = true → (StartScsi env dev).1 = none) := by
  have hred := StartScsi_prologue env dev s hl hn hc hip hset
  constructor
  · intro e hlog
    rw [hred]
    simp [startScsiInitiator, hlog]
  · intro d hlog hgd hdp
    rw [hred]
    simp [startScsiInitiator, startScsiDeviceWait, hlog, hgd, hdp]

/-- Witness for C3 (amended): discovery never confirms and every
attempt errors, login fails — the login error is what surfaces. -/
theorem claim_c3_witness :
    (StartScsi envW3 dev0).1 = some "iscsiadm: login failed" :=
  (claim_c3 envW3 dev0 "1.2.3.4" rfl rfl rfl rfl rfl (fun i hi => rfl)).1
    "iscsiadm: login failed" rfl

/-- Claim C1 (evaluation at the failing input): `envC1`/`envC1b` make
every one of the `RetryCounts` target-creation attempts fail.  The
claim (and §4.1 of the spec) says `SetupTarget` must then fail with
the last creation error without proceeding to attach the LUN.
Instead the allocation loop falls through without checking the error:
the loop result is `Except.ok dev0` with `TargetID` unchanged and all
`RetryCounts` attempts consumed, `AddLun` is reached (its distinct
error, not a creation error, is what surfaces under `envC1`), and
under `envC1b` — `AddLun`/`BindInitiator` succeeding — `SetupTarget`
returns success outright.  The last conjunct checks the half of the
claim the code does satisfy: with 3 collisions followed by a success,
exactly 4 allocation attempts are made and `TargetID` is set to the
created ID. -/
theorem claim_c1 :
    (SetupTarget envC1 dev0).1 = some "lun-error"
    ∧ (SetupTarget envC1 dev0).2.TargetID = dev0.TargetID
    ∧ (setupTargetLoop envC1 dev0 0 RetryCounts).2 = RetryCounts
    ∧ (setupTargetLoop envC1 dev0 0 RetryCounts).1 = Except.ok dev0
    ∧ (SetupTarget envC1b dev0).1 = none
    ∧ setupTargetLoop envC1c dev0 0 RetryCounts
        = (Except.ok { dev0 with TargetID := 3 }, 4) :=
  ⟨rfl, rfl, rfl, rfl, rfl, rfl⟩

end IscsiBlk
